import Mathlib

/-!
# Verification of microcli (`microcli.py`)

A shallow embedding of the microcli library: a Python 2 module that turns
decorated methods of a class into a command line interface.  The embedding
covers the parts exercised by the claims:

* Python values (`PyVal`) restricted to the kinds that occur in the code:
  strings, ints, bools and `None`.
* A model of the `optparse` machinery the code relies on
  (`CustomStderrOptionParser` / `GlobalOptionParser` / `CommandOptionParser`):
  long-option matching, value consumption, type coercion, the
  `ignore_unknown` pass-through loop, and the `error` path
  (usage text plus exit code 2).
* `CommandDefinition` (`combine_args`, `verify_function_arity`, `run`).
* `MicroCLI.run` (global parse, command selection, exception boundary,
  return-value handling), with `MicroCLI.exit` modeled as a terminal
  effect: a `sys.exit` in Python 2.7 raises `SystemExit`, which derives
  from `BaseException` and is not caught by the `except Exception` block
  in `MicroCLI.run`, so once `exit` is invoked the process terminates with
  that code.

The CLI writes everything through one stream: `MicroCLI.run` assigns
`self.global_optparser.stderr = self.stdout`, and every command parser is
constructed with `stderr=self.stdout`.  Output is therefore modeled as a
single accumulated `String`.
-/

/-- Python values of the kinds microcli manipulates. -/
inductive PyVal where
  | vstr (s : String)
  | vint (n : Int)
  | vbool (b : Bool)
  | vnone
  deriving Repr, DecidableEq

/-- Python `str()` on the embedded values.  `str` of an int is its decimal
form (with a leading minus for negatives), bools print as `True` and
`False`, `None` prints as `None`. -/
def pyStr : PyVal → String
  | .vstr s => s
  | .vint n => toString n
  | .vbool b => if b then "True" else "False"
  | .vnone => "None"

/-- Modeled subset of Python integer parsing (used both by the `optparse`
`int` type coercion and by the `int(...)` calls inside command bodies):
an optional minus sign followed by decimal digits parses to that integer,
anything else fails.  (The radix-prefix forms optparse additionally
accepts, such as `0x..`, do not occur in any input considered here.) -/
def decNatLoop : List Char → Nat → Option Nat
  | [], acc => some acc
  | c :: cs, acc =>
      if 48 ≤ c.toNat && c.toNat ≤ 57 then
        decNatLoop cs (acc * 10 + (c.toNat - 48))
      else
        none

/-- Integer parsing on a full string: optional sign, then decimal
digits. -/
def pyParseInt (s : String) : Option Int :=
  match s.data with
  | [] => none
  | ['-'] => none
  | ['+'] => none
  | '-' :: cs => (decNatLoop cs 0).map (fun n => -(n : Int))
  | '+' :: cs => (decNatLoop cs 0).map (fun n => (n : Int))
  | cs => (decNatLoop cs 0).map (fun n => (n : Int))

/-- Dictionary update: Python `setattr(values, dest, value)` on the
options object, whose `__dict__` is modeled as an association list. -/
def setv : List (String × PyVal) → String → PyVal → List (String × PyVal)
  | [], k, v => [(k, v)]
  | (k₁, v₁) :: rest, k, v =>
      if k₁ == k then (k, v) :: rest else (k₁, v₁) :: setv rest k v

/-- Dictionary lookup (`getattr` / `dict.__getitem__`). -/
def getv (vals : List (String × PyVal)) (k : String) : Option PyVal :=
  (vals.find? (fun kv => kv.1 == k)).map (fun kv => kv.2)

/-- Python `dict.get(key, default)`. -/
def getd (vals : List (String × PyVal)) (k : String) (d : PyVal) : PyVal :=
  (getv vals k).getD d

/-- Classification of a command-line token, following the order of the
tests in `optparse._process_args`: `arg == "--"`, then
`arg[0:2] == "--"`, then `arg[:1] == "-" and len(arg) > 1`, else a bare
(non-option) token. -/
inductive TokKind where
  | ddash
  | long
  | short
  | bare
  deriving Repr, DecidableEq

/-- Compute the `TokKind` of a token from its characters. -/
def tokKind (arg : String) : TokKind :=
  match arg.data with
  | ['-', '-'] => .ddash
  | '-' :: '-' :: _ => .long
  | '-' :: _ :: _ => .short
  | _ => .bare

/-- Split a long-option token at its first `=`, as
`optparse._process_long_opt` does with `arg.split("=", 1)`:
the result is the option part and, when an `=` was present, the attached
value. -/
def splitEqList : List Char → List Char × Option (List Char)
  | [] => ([], none)
  | c :: cs =>
      if c == '=' then ([], some cs)
      else
        let r := splitEqList cs
        (c :: r.1, r.2)

/-- String form of `splitEqList`. -/
def splitEq (arg : String) : String × Option String :=
  let r := splitEqList arg.data
  (String.mk r.1, r.2.map String.mk)

/-- `optparse` actions occurring in microcli: `store` (value-taking),
`store_true`, `store_false`, and the built-in help action of the
automatically added help option (`-h` and `--help`). -/
inductive OptAction where
  | store
  | storeTrue
  | storeFalse
  | helpAct
  deriving Repr, DecidableEq

/-- `optparse` option types occurring in microcli: `str` and `int`
(`None` meaning the raw string is stored, which is how `optparse`
treats a value-taking option without an explicit type). -/
inductive OptTy where
  | tstr
  | tint
  deriving Repr, DecidableEq

/-- One registered option of a parser (one `parser.add_option` call). -/
structure OptDef where
  flag : String
  dest : String
  action : OptAction
  ty : Option OptTy
  default : PyVal
  deriving Repr, DecidableEq

/-- Whether the option consumes a value token (`option.takes_value()`).
Only the `store` action takes a value here. -/
def OptDef.takesValue (o : OptDef) : Bool :=
  o.action == .store

/-- Configuration of one `CustomStderrOptionParser`. -/
structure ParserCfg where
  opts : List OptDef
  allowInterspersed : Bool
  ignoreUnknown : Bool
  prog : String
  usageText : String
  helpText : String
  deriving Repr

/-- `values = parser.get_default_values()`: the destination of every
non-help option mapped to its declared default. -/
def defaultValues (opts : List OptDef) : List (String × PyVal) :=
  (opts.filter (fun o => o.action != .helpAct)).map (fun o => (o.dest, o.default))

/-- List-level test that `small` is an initial run of `big` (used for the
abbreviated long-option matching of `optparse._match_long_opt`). -/
def isPrefixList : List Char → List Char → Bool
  | [], _ => true
  | _ :: _, [] => false
  | a :: as, b :: bs => a == b && isPrefixList as bs

/-- Result of `optparse._match_long_opt`: the matched option, or the kind
of failure (`BadOptionError` / `AmbiguousOptionError`), both of which
carry the offending option string. -/
inductive MatchRes where
  | okOpt (o : OptDef)
  | badOpt
  | ambiguousOpt
  deriving Repr, DecidableEq

/-- `optparse._match_long_opt`: an exact match wins; otherwise a unique
option of which the given string is an abbreviation; otherwise failure. -/
def matchLongOpt (opts : List OptDef) (opt : String) : MatchRes :=
  match opts.find? (fun o => o.flag == opt) with
  | some o => .okOpt o
  | none =>
      match opts.filter (fun o => isPrefixList opt.data o.flag.data) with
      | [o] => .okOpt o
      | [] => .badOpt
      | _ => .ambiguousOpt

/-- `optparse.check_builtin` type coercion of a supplied option value. -/
def checkValue (ty : Option OptTy) (opt : String) (v : String) :
    Except String PyVal :=
  match ty with
  | none => .ok (.vstr v)
  | some .tstr => .ok (.vstr v)
  | some .tint =>
      match pyParseInt v with
      | some n => .ok (.vint n)
      | none =>
          .error ("option " ++ opt ++ ": invalid integer value: '" ++ v ++ "'")

/-- Result of one `OptionParser._process_args` call: a normal return
(with the updated values, left args and remaining right args), a raised
`BadOptionError`/`AmbiguousOptionError` (carrying `e.opt_str` and the
message of `str(e)`), or a terminal `parser.error` exit. -/
inductive StepRes where
  | done (vals : List (String × PyVal)) (largs rargs : List String)
  | badopt (optStr msg : String) (vals : List (String × PyVal))
      (largs rargs : List String)
  | exited (code : Int) (out : String)
  deriving Repr, DecidableEq

/-- The output of `CustomStderrOptionParser.error`: `print_usage` to the
configured stream followed by `prog: error: msg` (written by
`exit(2, ...)` before the terminal `exit_impl(2)`). -/
def parserErrorOut (cfg : ParserCfg) (msg : String) : String :=
  cfg.usageText ++ cfg.prog ++ ": error: " ++ msg ++ "\n"

/-- Terminal `parser.error(msg)`: usage text and the message to the
parser's configured stream, then exit code 2. -/
def parserError (cfg : ParserCfg) (msg : String) : StepRes :=
  .exited 2 (parserErrorOut cfg msg)

/-- `optparse.OptionParser._process_args`, restricted to the option forms
microcli registers.  Structure mirrors the source loop: `--` terminates,
long options are matched and processed (consuming an attached `=value`
or the following token when the option takes a value), short tokens are
either the auto help `-h` or a `BadOptionError`, and a bare token is
appended to `largs` when interspersing is allowed, else the loop returns
with the token still unconsumed. -/
def baseProcessArgs (cfg : ParserCfg) (vals : List (String × PyVal))
    (largs : List String) : List String → StepRes
  | [] => .done vals largs []
  | arg :: rest =>
      match tokKind arg with
      | .ddash => .done vals largs rest
      | .long =>
          let sp := splitEq arg
          let opt := sp.1
          match sp.2 with
          | some attached =>
              -- an explicit `=value` was attached
              match matchLongOpt cfg.opts opt with
              | .badOpt =>
                  .badopt opt ("no such option: " ++ opt) vals largs
                    (attached :: rest)
              | .ambiguousOpt =>
                  .badopt opt ("ambiguous option: " ++ opt) vals largs
                    (attached :: rest)
              | .okOpt o =>
                  if o.takesValue then
                    match checkValue o.ty opt attached with
                    | .error m => parserError cfg m
                    | .ok v => baseProcessArgs cfg (setv vals o.dest v) largs rest
                  else
                    parserError cfg (opt ++ " option does not take a value")
          | none =>
              match matchLongOpt cfg.opts opt with
              | .badOpt =>
                  .badopt opt ("no such option: " ++ opt) vals largs rest
              | .ambiguousOpt =>
                  .badopt opt ("ambiguous option: " ++ opt) vals largs rest
              | .okOpt o =>
                  if o.takesValue then
                    match rest with
                    | [] => parserError cfg (opt ++ " option requires an argument")
                    | v :: rest₂ =>
                        match checkValue o.ty opt v with
                        | .error m => parserError cfg m
                        | .ok pv =>
                            baseProcessArgs cfg (setv vals o.dest pv) largs rest₂
                  else
                    match o.action with
                    | .storeTrue =>
                        baseProcessArgs cfg (setv vals o.dest (.vbool true)) largs rest
                    | .storeFalse =>
                        baseProcessArgs cfg (setv vals o.dest (.vbool false)) largs rest
                    | .helpAct => .exited 0 cfg.helpText
                    | .store => parserError cfg "unreachable"
      | .short =>
          -- the only short option ever registered is the automatic `-h`
          if arg == "-h" && cfg.opts.any (fun o => o.action == .helpAct) then
            .exited 0 cfg.helpText
          else
            .badopt (String.mk (arg.data.take 2))
              ("no such option: " ++ String.mk (arg.data.take 2)) vals largs rest
      | .bare =>
          if cfg.allowInterspersed then
            baseProcessArgs cfg vals (largs ++ [arg]) rest
          else
            .done vals largs (arg :: rest)

/-- Result of `CustomStderrOptionParser._process_args` (the wrapper that
optionally swallows unknown options): either a normal return or a
terminal exit; a raised option error escapes only when
`ignore_unknown` is off. -/
inductive WrapRes where
  | done (vals : List (String × PyVal)) (largs rargs : List String)
  | badopt (optStr msg : String) (vals : List (String × PyVal))
      (largs rargs : List String)
  | exited (code : Int) (out : String)
  deriving Repr, DecidableEq

/-- The `while rargs:` loop of `CustomStderrOptionParser._process_args`
in `ignore_unknown` mode: an unparseable option is appended to `largs`
and parsing resumes; a successful inner call returns immediately when
interspersing is off.  Fuel bounds the iterations (one unit per loop
entry; the initial call always passes enough). -/
def ignoreLoop (cfg : ParserCfg) :
    Nat → List (String × PyVal) → List String → List String → WrapRes
  | 0, vals, largs, rargs => .done vals largs rargs
  | Nat.succ fuel, vals, largs, rargs =>
      match rargs with
      | [] => .done vals largs []
      | _ :: _ =>
          match baseProcessArgs cfg vals largs rargs with
          | .exited c out => .exited c out
          | .badopt o _ v l r => ignoreLoop cfg fuel v (l ++ [o]) r
          | .done v l r =>
              if cfg.allowInterspersed then ignoreLoop cfg fuel v l r
              else .done v l r

/-- `CustomStderrOptionParser._process_args`. -/
def customProcessArgs (cfg : ParserCfg) (vals : List (String × PyVal))
    (largs rargs : List String) : WrapRes :=
  if cfg.ignoreUnknown then
    ignoreLoop cfg (Nat.succ rargs.length) vals largs rargs
  else
    match baseProcessArgs cfg vals largs rargs with
    | .done v l r => .done v l r
    | .badopt o m v l r => .badopt o m v l r
    | .exited c out => .exited c out

/-- Result of `parse_args`: the parsed option values and the remaining
(non-option) arguments, or a terminal exit. -/
inductive PRes where
  | ok (vals : List (String × PyVal)) (args : List String)
  | exited (code : Int) (out : String)
  deriving Repr, DecidableEq

/-- `OptionParser.parse_args`: start from the defaults, process the
tokens, catch a raised `BadOptionError`/`AmbiguousOptionError` by calling
`self.error(str(err))`, and return `largs + rargs` as the leftover
arguments. -/
def parseArgs (cfg : ParserCfg) (args : List String) : PRes :=
  match customProcessArgs cfg (defaultValues cfg.opts) [] args with
  | .exited c out => .exited c out
  | .badopt _ msg _ _ _ =>
      match parserError cfg msg with
      | .exited c out => .exited c out
      | _ => .exited 2 ""
  | .done v l r => .ok v (l ++ r)

/-! ## CommandDefinition -/

/-- Result of `CommandDefinition.run` as seen by `MicroCLI.run`: a
terminal exit (from a parser usage error or the arity check), a raised
Python exception propagating to the dispatch boundary, or a normal
return value.  The accumulated output of the stage is carried along. -/
inductive CmdRunRes where
  | exited (code : Int) (out : String)
  | raised (msg : String) (out : String)
  | returned (v : PyVal) (out : String)
  deriving Repr, DecidableEq

/-- One command of the CLI (`CommandDefinition.__init__`).
`argsWithDefaults` pairs each parameter name with its default
(`none` standing for `ARG_NO_DEFAULT_VALUE`); `varargs` is the name of
the variadic parameter when one is declared.  The body (`self.fun` in
the source; named `fn` here because `fun` is reserved) receives the
CLI's parsed global options, the values bound to the named parameters
in order, and the values bound to the variadic parameter, and produces
the text it writes plus either a return value or a raised exception
message. -/
structure CommandDefinition where
  name : String
  parserCfg : ParserCfg
  argsWithDefaults : List (String × Option PyVal)
  varargs : Option String
  fn : List (String × PyVal) → List PyVal → List PyVal →
        String × Except String PyVal

/-- `self.arg_names`: the parameters without a default value. -/
def CommandDefinition.argNames (cd : CommandDefinition) : List String :=
  (cd.argsWithDefaults.filter (fun p => p.2.isNone)).map (fun p => p.1)

/-- `CommandDefinition.combine_args`: walk the parameters in order;
a defaulted parameter takes `kwargs.get(name, default)`, a parameter
without a default pops the next positional token; surplus positional
tokens are appended after all parameter slots.  Popping from an empty
list raises (`IndexError`), which is modeled as the error case. -/
def combineArgs : List (String × Option PyVal) → List String →
    List (String × PyVal) → Except String (List PyVal)
  | [], pos, _ => .ok (pos.map PyVal.vstr)
  | (nm, some d) :: rest, pos, kwargs =>
      (combineArgs rest pos kwargs).map (fun l => getd kwargs nm d :: l)
  | (_, none) :: rest, pos, kwargs =>
      match pos with
      | [] => .error "pop from empty list"
      | p :: ps => (combineArgs rest ps kwargs).map (fun l => PyVal.vstr p :: l)

/-- Python call binding for `f(self, *argList, **kwargs)` against the
signature `argsWithDefaults` (+ optional variadic parameter): positional
values fill the parameters in order; a parameter left unfilled takes its
keyword value if supplied, else its declared default; missing required
parameters, duplicate bindings, unexpected keywords, or surplus
positionals without a variadic slot raise `TypeError`. -/
def bindParams : List (String × Option PyVal) → List PyVal →
    List (String × PyVal) → Except String (List PyVal)
  | [], _, _ => .ok []
  | (nm, _) :: rest, p :: ps, kwargs =>
      if kwargs.any (fun kv => kv.1 == nm) then
        .error ("got multiple values for keyword argument '" ++ nm ++ "'")
      else
        (bindParams rest ps kwargs).map (fun l => p :: l)
  | (nm, d) :: rest, [], kwargs =>
      match getv kwargs nm, d with
      | some v, _ => (bindParams rest [] kwargs).map (fun l => v :: l)
      | none, some dv => (bindParams rest [] kwargs).map (fun l => dv :: l)
      | none, none => .error ("takes at least " ++ nm ++ " argument")

/-- Full call binding: checks unexpected keywords and surplus
positionals, then binds parameters; returns the values of the named
parameters in order plus the variadic overflow. -/
def bindCall (sig : List (String × Option PyVal)) (hasVarargs : Bool)
    (pos : List PyVal) (kwargs : List (String × PyVal)) :
    Except String (List PyVal × List PyVal) :=
  if kwargs.any (fun kv => !(sig.any (fun p => p.1 == kv.1))) then
    .error "got an unexpected keyword argument"
  else if !hasVarargs && decide (sig.length < pos.length) then
    .error "takes too many arguments"
  else
    (bindParams sig (pos.take sig.length) kwargs).map
      (fun ps => (ps, pos.drop sig.length))

/-- Invoke the command body: bind the call, then run `fn`.  A binding
failure is a raised `TypeError`. -/
def callFun (cd : CommandDefinition) (globals : List (String × PyVal))
    (argList : List PyVal) (kwargs : List (String × PyVal)) : CmdRunRes :=
  match bindCall cd.argsWithDefaults cd.varargs.isSome argList kwargs with
  | .error m => .raised m ""
  | .ok (ps, va) =>
      match cd.fn globals ps va with
      | (w, .ok v) => .returned v w
      | (w, .error m) => .raised m w

/-- `CommandDefinition.verify_function_arity`: `none` when the count of
positional tokens is acceptable; otherwise the exit code 1 together with
the two diagnostic lines `cli.write` emits (each `write` appends a
newline). -/
def verifyFunctionArity (cd : CommandDefinition) (args : List String) :
    Option (Int × String) :=
  if cd.varargs.isSome && decide (cd.argNames.length ≤ args.length) then
    none
  else if args.length ≠ cd.argNames.length then
    some (1,
      (if cd.varargs.isSome then "Expected at least " else "Expected ") ++
        toString cd.argNames.length ++ " arguments, got " ++
        toString args.length ++ "\n" ++
      "Expected arguments: " ++ String.intercalate ", " cd.argNames ++ "\n")
  else
    none

/-- The part of `CommandDefinition.run` after a successful
`parse_args`: the arity check (terminal exit 1 on failure, so the body
is never reached), then the call — directly with positional tokens and
keyword options when there is no variadic parameter, through
`combine_args` otherwise. -/
def CommandDefinition.afterParse (cd : CommandDefinition)
    (globals kwargs : List (String × PyVal)) (positional : List String) :
    CmdRunRes :=
  match verifyFunctionArity cd positional with
  | some (c, w) => .exited c w
  | none =>
      if cd.varargs.isNone then
        callFun cd globals (positional.map PyVal.vstr) kwargs
      else
        match combineArgs cd.argsWithDefaults positional kwargs with
        | .error m => .raised m ""
        | .ok l => callFun cd globals l []

/-- `CommandDefinition.run`: parse the command tokens, then proceed as in
`afterParse`.  (The source's `except UnboundLocalError` branch around
`parse_args` is unreachable here: it only fires when `sys.exit` has been
replaced by a non-terminating stub, whereas this model treats `exit` as
terminal.) -/
def CommandDefinition.runCmd (cd : CommandDefinition)
    (globals : List (String × PyVal)) (args : List String) : CmdRunRes :=
  match parseArgs cd.parserCfg args with
  | .exited c out => .exited c out
  | .ok vals positional => cd.afterParse globals vals positional

/-! ## MicroCLI -/

/-- Stand-in for `traceback.format_exc()`: the model fixes only that a
diagnostic trace mentioning the failure is written; its precise text is
not specified by any claim. -/
def formatExc (msg : String) : String :=
  "Traceback (most recent call last): " ++ msg

/-- A constructed `MicroCLI` instance: its command definitions, the
global parser configuration (including any dynamically registered global
options), and `self.default_command`, which `__init__` sets to `None`. -/
structure MicroCLI where
  commands : List CommandDefinition
  globalCfg : ParserCfg
  defaultCommand : Option String

/-- Outcome of `MicroCLI.run`: either some `exit(code)` was reached
(terminal), or `run` returned normally without ever calling `exit`.
In both cases the accumulated output of the single configured stream is
carried along. -/
inductive RunRes where
  | exited (code : Int) (out : String)
  | finished (out : String)
  deriving Repr, DecidableEq

/-- `MicroCLI.run`: parse global options from `argv[1:]`; the command
name is the first remaining token, else `self.default_command`; `None`
and unregistered names are reported and exit 1; otherwise the command
runs, a raised exception is caught here (message and trace written, exit
1), an integer result is the exit code, a non-`None` result is written
followed by a newline with exit 0, and a `None` result falls through
(no exit, normal return). -/
def MicroCLI.run (cli : MicroCLI) (argv : List String) : RunRes :=
  match parseArgs cli.globalCfg (argv.drop 1) with
  | .exited c out => .exited c out
  | .ok gvals argList =>
      let commandName : Option String :=
        match argList with
        | [] => cli.defaultCommand
        | a :: _ => some a
      match commandName with
      | none =>
          .exited 1
            ("Please specify a command (try the 'help' command for usage info)!" ++ "\n")
      | some cname =>
          match cli.commands.find? (fun cd => cd.name == cname) with
          | none =>
              .exited 1
                ("Unrecognized command '" ++ cname ++
                  "' (try the 'help' command for usage info)!" ++ "\n")
          | some cd =>
              match cd.runCmd gvals (argList.drop 1) with
              | .exited c out => .exited c out
              | .raised m out =>
                  .exited 1 (out ++ "Error: " ++ m ++ "\n" ++ formatExc m ++ "\n")
              | .returned v out =>
                  match v with
                  | .vint n => .exited n out
                  | .vnone => .finished out
                  | _ => .exited 0 (out ++ pyStr v ++ "\n")

/-! ## Parser construction (`MicroCLI.get_command_definition` and
`MicroCLI.add_parser_option`) -/

/-- `MicroCLI.kwarg_name_to_option_name`:
`kwarg_name.replace("_", "-")`.  Both the pattern and the replacement
are single characters, so the replacement is a character map. -/
def kwargNameToOptionName (s : String) : String :=
  String.mk (s.data.map (fun c => if c == '_' then '-' else c))

/-- `MicroCLI.add_parser_option`: a string default gives a value-taking
string option; a boolean default gives a flag whose action negates the
default (`store_false` for `True`, `store_true` for `False`); an int
default gives a value-taking int option; any other default (only `None`
could occur) gives a plain `store` option with no type, which `optparse`
treats as string-valued. -/
def addParserOption (argName : String) (d : PyVal) : OptDef :=
  { flag := "--" ++ kwargNameToOptionName argName
    dest := argName
    action :=
      match d with
      | .vbool b => if b then .storeFalse else .storeTrue
      | _ => .store
    ty :=
      match d with
      | .vstr _ => some .tstr
      | .vint _ => some .tint
      | _ => none
    default := d }

/-- The usage line a parser's `print_usage` emits.  Its composition by
the help formatters is abstracted to one chunk: no claim constrains the
usage text beyond its presence on the configured stream. -/
def usageChunk (prog : String) : String :=
  "Usage: " ++ prog ++ " [global options] command [command options] command arguments\n"

/-- The output of `GlobalOptionParser.print_help` (parser help followed
by the per-command helps), abstracted to one chunk for the same reason
as `usageChunk`. -/
def globalPrintHelp (prog : String) : String :=
  usageChunk prog ++ "\nCommands:\n"

/-- The automatically registered help option of the global parser. -/
def helpOptDef : OptDef :=
  { flag := "--help", dest := "help", action := .helpAct, ty := none,
    default := .vnone }

/-- A `CommandOptionParser` configuration: one option per defaulted
parameter, interspersed arguments allowed (the `optparse` default), no
help option, strict unless the command passed `ignore_unknown` parser
options. -/
def commandParserCfg (prog : String) (ign : Bool)
    (awd : List (String × Option PyVal)) : ParserCfg :=
  { opts := awd.filterMap (fun p => p.2.map (addParserOption p.1))
    allowInterspersed := true
    ignoreUnknown := ign
    prog := prog
    usageText := usageChunk prog
    helpText := "" }

/-- The `GlobalOptionParser` configuration: the automatic help option
plus any dynamically registered global options; interspersing disabled,
unknown options deferred (`ignore_unknown=True`). -/
def globalParserCfg (prog : String) (extra : List OptDef) : ParserCfg :=
  { opts := helpOptDef :: extra
    allowInterspersed := false
    ignoreUnknown := true
    prog := prog
    usageText := usageChunk prog
    helpText := globalPrintHelp prog }

/-- Assemble a `MicroCLI` instance: `self.default_command = None` as in
`MicroCLI.__init__`. -/
def mkCLI (cmds : List CommandDefinition) (extraGlobal : List OptDef) :
    MicroCLI :=
  { commands := cmds
    globalCfg := globalParserCfg "script_name" extraGlobal
    defaultCommand := none }

/-! ## Concrete commands (from the test class `MicroCLITestCase.T` in the
source, generalized where a claim quantifies over the returned value) -/

/-- Python `int(...)` applied to an embedded value. -/
def pyIntCoerce : PyVal → Except String Int
  | .vint n => .ok n
  | .vbool b => .ok (if b then 1 else 0)
  | .vstr s =>
      match pyParseInt s with
      | some n => .ok n
      | none => .error ("invalid literal for int() with base 10: '" ++ s ++ "'")
  | .vnone => .error "int() argument must be a string or a number, not 'NoneType'"

/-- Signature of `f4(self, arg1, arg2, kwopt="asdf")`. -/
def f4sig : List (String × Option PyVal) :=
  [("arg1", none), ("arg2", none), ("kwopt", some (.vstr "asdf"))]

/-- `f4`: returns `"%s,%s,%s" % (arg1, arg2, kwopt)`. -/
def f4def : CommandDefinition :=
  { name := "f4"
    parserCfg := commandParserCfg "script_name" false f4sig
    argsWithDefaults := f4sig
    varargs := none
    fn := fun _ ps _ =>
      ("", .ok (.vstr (pyStr (ps.getD 0 .vnone) ++ "," ++
        pyStr (ps.getD 1 .vnone) ++ "," ++ pyStr (ps.getD 2 .vnone)))) }

/-- Signature of `f5(self, cmd_specific_arg=2)`. -/
def f5sig : List (String × Option PyVal) :=
  [("cmd_specific_arg", some (.vint 2))]

/-- `f5`: returns
`int(self.global_options["some_option"]) + int(cmd_specific_arg)`;
a missing key raises `KeyError` and a malformed number raises
`ValueError`, both propagating out of the body. -/
def f5def : CommandDefinition :=
  { name := "f5"
    parserCfg := commandParserCfg "script_name" false f5sig
    argsWithDefaults := f5sig
    varargs := none
    fn := fun gl ps _ =>
      ("",
        match getv gl "some_option" with
        | none => .error "'some_option'"
        | some g =>
            match pyIntCoerce g, pyIntCoerce (ps.getD 0 .vnone) with
            | .ok a, .ok b => .ok (.vint (a + b))
            | .error m, _ => .error m
            | _, .error m => .error m) }

/-- Signature of `f6(self, arg1, arg2, *vararg)`. -/
def f6sig : List (String × Option PyVal) :=
  [("arg1", none), ("arg2", none)]

/-- `f6`: returns `"%s,%s,%s" % (arg1, arg2, len(vararg))`. -/
def f6def : CommandDefinition :=
  { name := "f6"
    parserCfg := commandParserCfg "script_name" false f6sig
    argsWithDefaults := f6sig
    varargs := some "vararg"
    fn := fun _ ps va =>
      ("", .ok (.vstr (pyStr (ps.getD 0 .vnone) ++ "," ++
        pyStr (ps.getD 1 .vnone) ++ "," ++ toString va.length))) }

/-- `f1(self)` generalized over the integer it returns (the source test
returns the constant `RETVAL = 15`). -/
def f1def (k : Int) : CommandDefinition :=
  { name := "f1"
    parserCfg := commandParserCfg "script_name" false []
    argsWithDefaults := []
    varargs := none
    fn := fun _ _ _ => ("", .ok (.vint k)) }

/-- A parameterless command whose body returns the value `v`
(the shape of `f2`/`f3`, generalized over the returned value). -/
def constCmdDef (v : PyVal) : CommandDefinition :=
  { name := "fconst"
    parserCfg := commandParserCfg "script_name" false []
    argsWithDefaults := []
    varargs := none
    fn := fun _ _ _ => ("", .ok v) }

/-- A parameterless command whose body raises an exception with the
given message. -/
def raiseCmdDef (msg : String) : CommandDefinition :=
  { name := "boom"
    parserCfg := commandParserCfg "script_name" false []
    argsWithDefaults := []
    varargs := none
    fn := fun _ _ _ => ("", .error msg) }

/-- A parameterless command whose body writes `w` and returns `None`. -/
def noneCmdDef (w : String) : CommandDefinition :=
  { name := "fnone"
    parserCfg := commandParserCfg "script_name" false []
    argsWithDefaults := []
    varargs := none
    fn := fun _ _ _ => (w, .ok .vnone) }

/-- The built-in `help` command: prints the global parser's help
(`self.global_optparser.print_help()`) and returns `None`. -/
def helpCmdDef : CommandDefinition :=
  { name := "help"
    parserCfg := commandParserCfg "script_name" false []
    argsWithDefaults := []
    varargs := none
    fn := fun _ _ _ => (globalPrintHelp "script_name", .ok .vnone) }

/-- The dynamically registered global option of the source tests
`test_command_vs_global_options`: flag `--cmd-specific-arg`, destination
`some_option`, plain `store` action (string-valued, default `None`). -/
def sharedGlobalOpt : OptDef :=
  { flag := "--cmd-specific-arg", dest := "some_option", action := .store,
    ty := none, default := .vnone }

/-- The CLI used by the claims about dispatch: the built-in `help` plus
the commands above, no extra global options. -/
def cliT : MicroCLI := mkCLI [helpCmdDef, f1def 15, f4def, f5def, f6def] []

/-! ## Claims -/

/-- C1 (counterexample): contrary to the claim, an unrecognized command
name does not fall back to `help` with exit 0, and the absence of a
command does not fall back to `help` with exit 0: `self.default_command`
is `None`, so `MicroCLI.run` reports each condition and exits with
code 1. -/
theorem claim1_counterexample :
    MicroCLI.run cliT ["script_name", "nosuch"] =
      .exited 1
        "Unrecognized command 'nosuch' (try the 'help' command for usage info)!\n" ∧
    MicroCLI.run cliT ["script_name"] =
      .exited 1
        "Please specify a command (try the 'help' command for usage info)!\n" := by
  exact ⟨by decide, by decide⟩

/-- C4: a command whose body returns the integer `k` makes the process
exit with exactly `k` — including `0` and negative values — and nothing
is written for the return value. -/
theorem claim4_int_return_is_exit_code (k : Int) :
    MicroCLI.run (mkCLI [f1def k] []) ["script_name", "f1"] = .exited k "" := by
  rfl

/-- C7: an exception raised inside the command body propagates uncaught
through `CommandDefinition.run` (first conjunct) and is caught exactly at
the dispatch boundary in `MicroCLI.run`, which writes the message and a
diagnostic trace and exits with code 1 (second conjunct); `run` never
lets it propagate (its result type has no raising outcome). -/
theorem claim7_exception_caught_at_dispatch (msg : String) :
    (raiseCmdDef msg).runCmd [] [] = .raised msg "" ∧
    MicroCLI.run (mkCLI [raiseCmdDef msg] []) ["script_name", "boom"] =
      .exited 1 ("Error: " ++ msg ++ "\n" ++ formatExc msg ++ "\n") := by
  exact ⟨rfl, rfl⟩

/-- C9: a command whose body returns a non-integer, non-`None` value `v`
makes the CLI write exactly `str(v)` followed by one newline and exit
with code 0. -/
theorem claim9_nonint_return_written (v : PyVal)
    (hint : ∀ n : Int, v ≠ .vint n) (hnone : v ≠ .vnone) :
    MicroCLI.run (mkCLI [constCmdDef v] []) ["script_name", "fconst"] =
      .exited 0 (pyStr v ++ "\n") := by
  cases v with
  | vint n => exact absurd rfl (hint n)
  | vnone => exact absurd rfl hnone
  | vstr s => rfl
  | vbool b => rfl

/-- C9 witness: the body returns the string `"asdf"` (the scenario of the
source test `test_print_returned_string`). -/
theorem claim9_nonint_return_written_witness :
    MicroCLI.run (mkCLI [constCmdDef (.vstr "asdf")] []) ["script_name", "fconst"] =
      .exited 0 "asdf\n" :=
  claim9_nonint_return_written (.vstr "asdf")
    (fun _ h => PyVal.noConfusion h) (fun h => PyVal.noConfusion h)

/-- C10: a command whose body returns `None` (writing `w` itself) makes
the dispatcher write nothing further and invoke neither exit branch:
`run` returns normally (the `finished` outcome carries no exit code).
The built-in `help` command is such a command: it prints the global help
and returns `None`. -/
theorem claim10_none_return_no_exit (w : String) :
    MicroCLI.run (mkCLI [noneCmdDef w] []) ["script_name", "fnone"] = .finished w ∧
    MicroCLI.run cliT ["script_name", "help"] =
      .finished (globalPrintHelp "script_name") := by
  exact ⟨rfl, rfl⟩

/-! ## Parser lemmas -/

/-- With interspersed arguments disallowed (the global parser), a bare
token stops processing and stays, with everything after it, in the
unconsumed remainder. -/
theorem base_bare_stop (cfg : ParserCfg) (vals : List (String × PyVal))
    (largs : List String) (t : String) (rest : List String)
    (hi : cfg.allowInterspersed = false) (ht : tokKind t = .bare) :
    baseProcessArgs cfg vals largs (t :: rest) = .done vals largs (t :: rest) := by
  simp only [baseProcessArgs]
  rw [ht]
  simp [hi]

/-- With interspersed arguments allowed (command parsers), a run of bare
tokens is collected, in order, into the positional arguments. -/
theorem base_bare_collect (cfg : ParserCfg) (hi : cfg.allowInterspersed = true)
    (vals : List (String × PyVal)) (ts : List String)
    (hts : ∀ t ∈ ts, tokKind t = .bare) (largs : List String) :
    baseProcessArgs cfg vals largs ts = .done vals (largs ++ ts) [] := by
  induction ts generalizing largs with
  | nil => simp [baseProcessArgs]
  | cons t ts ih =>
      have ht := hts t (by simp)
      simp only [baseProcessArgs]
      rw [ht]
      simp only [hi, if_true]
      rw [ih (fun x hx => hts x (by simp [hx]))]
      simp

/-- Processing a matched value-taking long option: with a following
token, the value is coerced (usage-error exit on failure, store and
continue on success); alone at the end, a missing-argument usage error. -/
theorem base_long_store (cfg : ParserCfg) (vals : List (String × PyVal))
    (largs : List String) (flag : String) (o : OptDef)
    (hf : tokKind flag = .long) (hsp : splitEq flag = (flag, none))
    (hm : matchLongOpt cfg.opts flag = .okOpt o) (ha : o.action = .store) :
    (∀ v rest, baseProcessArgs cfg vals largs (flag :: v :: rest) =
      (match checkValue o.ty flag v with
       | .error m => parserError cfg m
       | .ok pv => baseProcessArgs cfg (setv vals o.dest pv) largs rest)) ∧
    baseProcessArgs cfg vals largs [flag] =
      parserError cfg (flag ++ " option requires an argument") := by
  constructor
  · intro v rest
    simp only [baseProcessArgs]
    rw [hf]
    simp [hsp, hm, OptDef.takesValue, ha]
  · simp only [baseProcessArgs]
    rw [hf]
    simp [hsp, hm, OptDef.takesValue, ha]

/-- Glue: a strict parser (command parsers) returns the final state of
one `_process_args` call. -/
theorem parseArgs_strict_done (cfg : ParserCfg) (args : List String)
    (vals : List (String × PyVal)) (largs rargs : List String)
    (hig : cfg.ignoreUnknown = false)
    (hbase : baseProcessArgs cfg (defaultValues cfg.opts) [] args =
      .done vals largs rargs) :
    parseArgs cfg args = .ok vals (largs ++ rargs) := by
  unfold parseArgs customProcessArgs
  rw [hig, hbase]
  simp

/-- Glue: a strict parser propagates a terminal usage-error exit. -/
theorem parseArgs_strict_exited (cfg : ParserCfg) (args : List String)
    (c : Int) (out : String)
    (hig : cfg.ignoreUnknown = false)
    (hbase : baseProcessArgs cfg (defaultValues cfg.opts) [] args =
      .exited c out) :
    parseArgs cfg args = .exited c out := by
  unfold parseArgs customProcessArgs
  rw [hig, hbase]
  simp

/-- Glue: the `ignore_unknown` parser with interspersing off (the global
parser) returns as soon as the inner call returns. -/
theorem parseArgs_ignore_done (cfg : ParserCfg) (x : String) (xs : List String)
    (vals : List (String × PyVal)) (largs rargs : List String)
    (hig : cfg.ignoreUnknown = true) (hint : cfg.allowInterspersed = false)
    (hbase : baseProcessArgs cfg (defaultValues cfg.opts) [] (x :: xs) =
      .done vals largs rargs) :
    parseArgs cfg (x :: xs) = .ok vals (largs ++ rargs) := by
  unfold parseArgs customProcessArgs
  rw [hig]
  simp only [ignoreLoop, List.length_cons]
  rw [hbase, hint]
  simp

/-- C2: for any command, parsed global state and parsed keyword options,
after the command parser has produced the positional tokens `pos`:
without a variadic parameter the body is invoked (via `callFun`) exactly
when `pos` has as many tokens as there are required parameters, and any
other count terminates with exit code 1 after writing the
expected-vs-actual counts and the expected argument names, the body
never being invoked (the outcome is a fixed `exited` value independent
of the body `cd.fn`); with a variadic parameter the body is invoked
exactly when `pos` has at least that many tokens, and fewer terminate
with exit code 1 the same way. -/
theorem claim2_arity_check (cd : CommandDefinition)
    (globals kwargs : List (String × PyVal)) (pos : List String) :
    (cd.varargs = none →
      (pos.length = cd.argNames.length →
        cd.afterParse globals kwargs pos =
          callFun cd globals (pos.map PyVal.vstr) kwargs) ∧
      (pos.length ≠ cd.argNames.length →
        cd.afterParse globals kwargs pos =
          .exited 1 ("Expected " ++ toString cd.argNames.length ++
            " arguments, got " ++ toString pos.length ++ "\n" ++
            "Expected arguments: " ++
            String.intercalate ", " cd.argNames ++ "\n"))) ∧
    (cd.varargs.isSome = true →
      (cd.argNames.length ≤ pos.length →
        cd.afterParse globals kwargs pos =
          (match combineArgs cd.argsWithDefaults pos kwargs with
           | .error m => .raised m ""
           | .ok l => callFun cd globals l [])) ∧
      (pos.length < cd.argNames.length →
        cd.afterParse globals kwargs pos =
          .exited 1 ("Expected at least " ++ toString cd.argNames.length ++
            " arguments, got " ++ toString pos.length ++ "\n" ++
            "Expected arguments: " ++
            String.intercalate ", " cd.argNames ++ "\n"))) := by
  constructor
  · intro hv
    constructor
    · intro hlen
      simp [CommandDefinition.afterParse, verifyFunctionArity, hv, hlen]
    · intro hlen
      simp [CommandDefinition.afterParse, verifyFunctionArity, hv, hlen]
  · intro hv
    constructor
    · intro hle
      have hnone : cd.varargs.isNone = false := by
        cases h : cd.varargs
        · rw [h] at hv; simp at hv
        · simp [h]
      simp [CommandDefinition.afterParse, verifyFunctionArity, hv, hle, hnone]
    · intro hlt
      have hne : pos.length ≠ cd.argNames.length := by omega
      have hnle : ¬ (cd.argNames.length ≤ pos.length) := by omega
      simp [CommandDefinition.afterParse, verifyFunctionArity, hv, hne, hnle]

/-- C2 witness: `f4` (two required parameters, no variadic) invoked with
one positional token exits 1 with the diagnostic lines and never reaches
the body; with two tokens the body is invoked. -/
theorem claim2_arity_check_witness :
    f4def.afterParse [] [] ["a"] =
      .exited 1 "Expected 2 arguments, got 1\nExpected arguments: arg1, arg2\n" ∧
    f6def.afterParse [] [] ["a"] =
      .exited 1
        "Expected at least 2 arguments, got 1\nExpected arguments: arg1, arg2\n" :=
  ⟨((claim2_arity_check f4def [] [] ["a"]).1 rfl).2 (by decide),
   ((claim2_arity_check f6def [] [] ["a"]).2 rfl).2 (by decide)⟩

/-- `combine_args` on a signature of defaulted parameters only: each
takes its keyword value (or declared default), and the positional tokens
follow. -/
theorem combineArgs_defaults (ds : List (String × PyVal)) (pos : List String)
    (kwargs : List (String × PyVal)) :
    combineArgs (ds.map (fun p => (p.1, some p.2))) pos kwargs =
      .ok (ds.map (fun p => getd kwargs p.1 p.2) ++ pos.map PyVal.vstr) := by
  induction ds with
  | nil => simp [combineArgs]
  | cons hd tl ih => simp [combineArgs, ih, Except.map]

/-- `combine_args` on a signature whose required parameters precede the
defaulted ones (as Python syntax forces): the first `|nds|` positional
tokens fill the required parameters in order, the defaulted parameters
take their keyword values, and the surplus tokens follow (they will fill
the variadic slot). -/
theorem combineArgs_split (nds : List String) (ds : List (String × PyVal))
    (pos : List String) (kwargs : List (String × PyVal))
    (h : nds.length ≤ pos.length) :
    combineArgs (nds.map (fun n => (n, none)) ++ ds.map (fun p => (p.1, some p.2)))
        pos kwargs =
      .ok ((pos.take nds.length).map PyVal.vstr ++
        ds.map (fun p => getd kwargs p.1 p.2) ++
        (pos.drop nds.length).map PyVal.vstr) := by
  induction nds generalizing pos with
  | nil => simp [combineArgs_defaults]
  | cons n ns ih =>
      cases pos with
      | nil => simp at h
      | cons p ps =>
          have h2 : ns.length ≤ ps.length := by simpa using h
          simp [combineArgs, ih ps h2, Except.map]

/-- C3: argument reassembly.  First conjunct: `combine_args` binds the
positional tokens, in order, to the parameters without defaults, each
parsed option by keyword to its defaulted parameter, and the surplus
tokens into the variadic slot.  Second conjunct: the spec's concrete
scenario — `f4(arg1, arg2, kwopt="asdf")` invoked with tokens
`--kwopt c a b` binds `arg1=a`, `arg2=b`, `kwopt=c` even though the flag
precedes the positional tokens, prints `a,b,c` and exits 0. -/
theorem claim3_call_reassembly (nds : List String) (ds : List (String × PyVal))
    (pos : List String) (kwargs : List (String × PyVal)) (a b c : String)
    (hlen : nds.length ≤ pos.length)
    (ha : tokKind a = .bare) (hb : tokKind b = .bare) :
    combineArgs (nds.map (fun n => (n, none)) ++ ds.map (fun p => (p.1, some p.2)))
        pos kwargs =
      .ok ((pos.take nds.length).map PyVal.vstr ++
        ds.map (fun p => getd kwargs p.1 p.2) ++
        (pos.drop nds.length).map PyVal.vstr) ∧
    MicroCLI.run cliT ["script_name", "f4", "--kwopt", c, a, b] =
      .exited 0 (a ++ "," ++ b ++ "," ++ c ++ "\n") := by
  refine ⟨combineArgs_split nds ds pos kwargs hlen, ?_⟩
  have hg : parseArgs cliT.globalCfg ["f4", "--kwopt", c, a, b] =
      .ok [] ["f4", "--kwopt", c, a, b] := rfl
  have hstep : baseProcessArgs f4def.parserCfg
      (defaultValues f4def.parserCfg.opts) [] ["--kwopt", c, a, b] =
      baseProcessArgs f4def.parserCfg [("kwopt", PyVal.vstr c)] [] [a, b] := rfl
  have hcoll : baseProcessArgs f4def.parserCfg [("kwopt", PyVal.vstr c)] [] [a, b] =
      .done [("kwopt", PyVal.vstr c)] [a, b] [] := by
    apply base_bare_collect f4def.parserCfg rfl
    intro t ht
    simp only [List.mem_cons, List.mem_singleton, List.not_mem_nil] at ht
    rcases ht with rfl | rfl | hf
    · exact ha
    · exact hb
    · cases hf
  have hp : parseArgs f4def.parserCfg ["--kwopt", c, a, b] =
      .ok [("kwopt", PyVal.vstr c)] [a, b] := by
    have := parseArgs_strict_done f4def.parserCfg ["--kwopt", c, a, b]
      [("kwopt", PyVal.vstr c)] [a, b] [] rfl (hstep.trans hcoll)
    simpa using this
  show MicroCLI.run cliT ["script_name", "f4", "--kwopt", c, a, b] = _
  unfold MicroCLI.run
  rw [show (["script_name", "f4", "--kwopt", c, a, b].drop 1) =
    ["f4", "--kwopt", c, a, b] from rfl, hg]
  simp only []
  rw [show cliT.commands.find? (fun cd => cd.name == "f4") = some f4def from rfl]
  simp only [CommandDefinition.runCmd, List.drop_succ_cons, List.drop_zero]
  rw [hp]
  rfl

/-- C3 witness: the source scenario of `test_mixing_args_and_kwargs`,
plus `combine_args` at a concrete variadic shape (two required
parameters, one defaulted, four positional tokens). -/
theorem claim3_call_reassembly_witness :
    combineArgs
        [("arg1", none), ("arg2", none), ("kwopt", some (PyVal.vstr "asdf"))]
        ["x", "y", "z"] [("kwopt", PyVal.vstr "c")] =
      .ok [.vstr "x", .vstr "y", .vstr "c", .vstr "z"] ∧
    MicroCLI.run cliT ["script_name", "f4", "--kwopt", "c", "a", "b"] =
      .exited 0 "a,b,c\n" :=
  claim3_call_reassembly ["arg1", "arg2"] [("kwopt", PyVal.vstr "asdf")]
    ["x", "y", "z"] [("kwopt", PyVal.vstr "c")] "a" "b" "c"
    (by decide) (by decide) (by decide)

/-- C5: global versus command options sharing one flag spelling.
First conjunct: the global parser consumes `--cmd-specific-arg v`
(binding the global destination `some_option`), stops at the first bare
token `t`, and leaves it and everything after it — further flags
included — untouched for the command stage.  Second conjunct,
end-to-end (the scenario of `test_command_vs_global_options`): with the
flag both before and after the command name, the occurrence before binds
to the global option (value `v`) and the occurrence after binds to the
command option of `f5` (value `w`), as witnessed by the exit code
`int(v) + int(w)`. -/
theorem claim5_shared_flag_resolution (v w t : String) (rest : List String)
    (nv nw : Int) (hv : pyParseInt v = some nv) (hw : pyParseInt w = some nw)
    (ht : tokKind t = .bare) :
    parseArgs (globalParserCfg "script_name" [sharedGlobalOpt])
        ("--cmd-specific-arg" :: v :: t :: rest) =
      .ok [("some_option", PyVal.vstr v)] (t :: rest) ∧
    MicroCLI.run (mkCLI [f5def] [sharedGlobalOpt])
        ["script_name", "--cmd-specific-arg", v, "f5", "--cmd-specific-arg", w] =
      .exited (nv + nw) "" := by
  constructor
  · have hstep : baseProcessArgs (globalParserCfg "script_name" [sharedGlobalOpt])
        (defaultValues (globalParserCfg "script_name" [sharedGlobalOpt]).opts) []
        ("--cmd-specific-arg" :: v :: t :: rest) =
        baseProcessArgs (globalParserCfg "script_name" [sharedGlobalOpt])
          [("some_option", PyVal.vstr v)] [] (t :: rest) := rfl
    have hstop := base_bare_stop (globalParserCfg "script_name" [sharedGlobalOpt])
      [("some_option", PyVal.vstr v)] [] t rest rfl ht
    have := parseArgs_ignore_done (globalParserCfg "script_name" [sharedGlobalOpt])
      "--cmd-specific-arg" (v :: t :: rest)
      [("some_option", PyVal.vstr v)] [] (t :: rest) rfl rfl
      (hstep.trans hstop)
    simpa using this
  · have hg : parseArgs (mkCLI [f5def] [sharedGlobalOpt]).globalCfg
        ["--cmd-specific-arg", v, "f5", "--cmd-specific-arg", w] =
        .ok [("some_option", PyVal.vstr v)] ["f5", "--cmd-specific-arg", w] := rfl
    have hcv : checkValue (some .tint) "--cmd-specific-arg" w = .ok (.vint nw) := by
      simp [checkValue, hw]
    have hbase : baseProcessArgs f5def.parserCfg
        (defaultValues f5def.parserCfg.opts) [] ["--cmd-specific-arg", w] =
        .done [("cmd_specific_arg", PyVal.vint nw)] [] [] := by
      have h1 := (base_long_store f5def.parserCfg
        (defaultValues f5def.parserCfg.opts) [] "--cmd-specific-arg"
        (addParserOption "cmd_specific_arg" (PyVal.vint 2))
        (by decide) (by decide) (by decide) rfl).1 w []
      rw [h1, show (addParserOption "cmd_specific_arg" (PyVal.vint 2)).ty =
        some OptTy.tint from rfl, hcv]
      rfl
    have hcmd : parseArgs f5def.parserCfg ["--cmd-specific-arg", w] =
        .ok [("cmd_specific_arg", PyVal.vint nw)] [] :=
      parseArgs_strict_done f5def.parserCfg ["--cmd-specific-arg", w]
        [("cmd_specific_arg", PyVal.vint nw)] [] [] rfl hbase
    have hone : pyIntCoerce (PyVal.vstr v) = .ok nv := by
      simp [pyIntCoerce, hv]
    have hap : f5def.afterParse [("some_option", PyVal.vstr v)]
        [("cmd_specific_arg", PyVal.vint nw)] [] =
        .returned (PyVal.vint (nv + nw)) "" := by
      simp only [CommandDefinition.afterParse, verifyFunctionArity]
      simp only [f5def, callFun, bindCall, bindParams, getv, List.find?,
        CommandDefinition.argNames]
      simp [f5sig, hv, Except.map, hone, pyIntCoerce]
    simp only [MicroCLI.run, List.drop, hg]
    simp only [List.find?, mkCLI]
    rw [show (f5def.name == "f5") = true from rfl]
    simp only [CommandDefinition.runCmd, List.drop, hcmd, hap]

/-- C5 witness: the exact tokens of `test_command_vs_global_options`
(values 51 and 53, exit code 104), plus a concrete pass-through
remainder for the first conjunct. -/
theorem claim5_shared_flag_resolution_witness :
    parseArgs (globalParserCfg "script_name" [sharedGlobalOpt])
        ("--cmd-specific-arg" :: "51" :: "f5" :: ["--cmd-specific-arg", "53"]) =
      .ok [("some_option", PyVal.vstr "51")] ("f5" :: ["--cmd-specific-arg", "53"]) ∧
    MicroCLI.run (mkCLI [f5def] [sharedGlobalOpt])
        ["script_name", "--cmd-specific-arg", "51", "f5", "--cmd-specific-arg", "53"] =
      .exited (51 + 53) "" :=
  claim5_shared_flag_resolution "51" "53" "f5" ["--cmd-specific-arg", "53"]
    51 53 (by decide) (by decide) (by decide)

/-- C6: a declared value-taking option of any strict command parser.
First conjunct: when the flag's value is missing, the parser writes its
usage text followed by the error line to the configured stream (the one
stream the CLI writes all output to) and exits with code 2 — the
outcome is produced by the parser alone, independent of the command
body `cd.fn`, which is therefore never invoked.  Second conjunct: for an
int-typed option (the type inferred from a numeric default), a supplied
value that fails coercion exits with code 2 the same way. -/
theorem claim6_option_usage_errors (cd : CommandDefinition) (o : OptDef)
    (flag v : String) (globals : List (String × PyVal))
    (hf : tokKind flag = .long) (hsp : splitEq flag = (flag, none))
    (hm : matchLongOpt cd.parserCfg.opts flag = .okOpt o)
    (ha : o.action = .store)
    (hig : cd.parserCfg.ignoreUnknown = false) :
    cd.runCmd globals [flag] =
      .exited 2 (parserErrorOut cd.parserCfg
        (flag ++ " option requires an argument")) ∧
    (o.ty = some .tint → pyParseInt v = none →
      cd.runCmd globals [flag, v] =
        .exited 2 (parserErrorOut cd.parserCfg
          ("option " ++ flag ++ ": invalid integer value: '" ++ v ++ "'"))) := by
  constructor
  · have hb := (base_long_store cd.parserCfg (defaultValues cd.parserCfg.opts)
      [] flag o hf hsp hm ha).2
    have hpe := parseArgs_strict_exited cd.parserCfg [flag] 2
      (parserErrorOut cd.parserCfg (flag ++ " option requires an argument"))
      hig (by rw [hb]; rfl)
    simp only [CommandDefinition.runCmd, hpe]
  · intro hty hv
    have hb1 := (base_long_store cd.parserCfg (defaultValues cd.parserCfg.opts)
      [] flag o hf hsp hm ha).1 v []
    have hcv : checkValue o.ty flag v =
        .error ("option " ++ flag ++ ": invalid integer value: '" ++ v ++ "'") := by
      rw [hty]
      simp [checkValue, hv]
    have hpe := parseArgs_strict_exited cd.parserCfg [flag, v] 2
      (parserErrorOut cd.parserCfg
        ("option " ++ flag ++ ": invalid integer value: '" ++ v ++ "'"))
      hig (by rw [hb1, hcv]; rfl)
    simp only [CommandDefinition.runCmd, hpe]

/-- C6 witness: `f5`'s option `--cmd-specific-arg` (int type inferred
from its default `2`), with the missing-value tokens of
`test_missing_kwarg_value` and the non-numeric value `abc`. -/
theorem claim6_option_usage_errors_witness :
    f5def.runCmd [] ["--cmd-specific-arg"] =
      .exited 2 (parserErrorOut f5def.parserCfg
        "--cmd-specific-arg option requires an argument") ∧
    f5def.runCmd [] ["--cmd-specific-arg", "abc"] =
      .exited 2 (parserErrorOut f5def.parserCfg
        "option --cmd-specific-arg: invalid integer value: 'abc'") :=
  ⟨(claim6_option_usage_errors f5def
      (addParserOption "cmd_specific_arg" (PyVal.vint 2)) "--cmd-specific-arg"
      "abc" [] (by decide) (by decide) (by decide) rfl rfl).1,
   (claim6_option_usage_errors f5def
      (addParserOption "cmd_specific_arg" (PyVal.vint 2)) "--cmd-specific-arg"
      "abc" [] (by decide) (by decide) (by decide) rfl rfl).2 rfl (by decide)⟩

/-- The command parser synthesized for a single boolean-defaulted
parameter `bool_option1` (the shape of `f7`). -/
def boolOptCfg (b : Bool) : ParserCfg :=
  commandParserCfg "script_name" false [("bool_option1", some (.vbool b))]

/-- C8: a boolean-defaulted parameter becomes a value-less flag whose
presence stores the negation of the default (`store_false` for default
`True`, `store_true` for default `False`), and whose absence leaves the
default; the token following the flag is not consumed as a value (it
remains a positional argument). -/
theorem claim8_bool_flag_polarity (b : Bool) (t : String)
    (ht : tokKind t = .bare) :
    (addParserOption "bool_option1" (.vbool b)).action =
      (if b then OptAction.storeFalse else OptAction.storeTrue) ∧
    (addParserOption "bool_option1" (.vbool b)).ty = none ∧
    parseArgs (boolOptCfg b) ["--bool-option1", t] =
      .ok [("bool_option1", PyVal.vbool (!b))] [t] ∧
    parseArgs (boolOptCfg b) [] = .ok [("bool_option1", PyVal.vbool b)] [] := by
  refine ⟨by cases b <;> rfl, by cases b <;> rfl, ?_, by cases b <;> rfl⟩
  cases b with
  | true =>
      have hstep : baseProcessArgs (boolOptCfg true)
          (defaultValues (boolOptCfg true).opts) [] ["--bool-option1", t] =
          baseProcessArgs (boolOptCfg true)
            [("bool_option1", PyVal.vbool false)] [] [t] := rfl
      have hcoll := base_bare_collect (boolOptCfg true) rfl
        [("bool_option1", PyVal.vbool false)] [t]
        (by intro x hx; simp only [List.mem_singleton] at hx; subst hx; exact ht) []
      have := parseArgs_strict_done (boolOptCfg true) ["--bool-option1", t]
        [("bool_option1", PyVal.vbool false)] ([] ++ [t]) [] rfl
        (hstep.trans hcoll)
      simpa using this
  | false =>
      have hstep : baseProcessArgs (boolOptCfg false)
          (defaultValues (boolOptCfg false).opts) [] ["--bool-option1", t] =
          baseProcessArgs (boolOptCfg false)
            [("bool_option1", PyVal.vbool true)] [] [t] := rfl
      have hcoll := base_bare_collect (boolOptCfg false) rfl
        [("bool_option1", PyVal.vbool true)] [t]
        (by intro x hx; simp only [List.mem_singleton] at hx; subst hx; exact ht) []
      have := parseArgs_strict_done (boolOptCfg false) ["--bool-option1", t]
        [("bool_option1", PyVal.vbool true)] ([] ++ [t]) [] rfl
        (hstep.trans hcoll)
      simpa using this

/-- C8 witness: default `True` with a trailing bare token. -/
theorem claim8_bool_flag_polarity_witness :
    (addParserOption "bool_option1" (.vbool true)).action = OptAction.storeFalse ∧
    (addParserOption "bool_option1" (.vbool true)).ty = none ∧
    parseArgs (boolOptCfg true) ["--bool-option1", "x"] =
      .ok [("bool_option1", PyVal.vbool false)] ["x"] ∧
    parseArgs (boolOptCfg true) [] =
      .ok [("bool_option1", PyVal.vbool true)] [] :=
  claim8_bool_flag_polarity true "x" (by decide)

/-- C1 (amended): when no command name remains after global-option
parsing, the dispatcher writes a prompt to specify a command and exits
with code 1 (`self.default_command` is `None`, so there is no fallback);
when the first remaining token is a bare word that is not a registered
command name, the dispatcher writes an unrecognized-command report
naming it and exits with code 1.  Neither case resolves to `help`. -/
theorem claim1_no_default_fallback (name : String)
    (hbare : tokKind name = .bare)
    (hreg : ∀ cd ∈ cliT.commands, cd.name ≠ name) :
    MicroCLI.run cliT ["script_name", name] =
      .exited 1 ("Unrecognized command '" ++ name ++
        "' (try the 'help' command for usage info)!" ++ "\n") ∧
    MicroCLI.run cliT ["script_name"] =
      .exited 1
        "Please specify a command (try the 'help' command for usage info)!\n" := by
  constructor
  · have hstop := base_bare_stop cliT.globalCfg
      (defaultValues cliT.globalCfg.opts) [] name [] rfl hbare
    have hg0 := parseArgs_ignore_done cliT.globalCfg name []
      (defaultValues cliT.globalCfg.opts) [] [name] rfl rfl hstop
    have hg : parseArgs cliT.globalCfg [name] = .ok [] [name] := hg0
    have hfind : cliT.commands.find? (fun cd => cd.name == name) = none := by
      rw [List.find?_eq_none]
      intro cd hcd
      simpa using hreg cd hcd
    simp only [MicroCLI.run, List.drop_succ_cons, List.drop_zero, hg, hfind]
  · decide

/-- C1 (amended) witness: the unregistered command name `nosuch`. -/
theorem claim1_no_default_fallback_witness :
    MicroCLI.run cliT ["script_name", "nosuch"] =
      .exited 1 ("Unrecognized command '" ++ "nosuch" ++
        "' (try the 'help' command for usage info)!" ++ "\n") ∧
    MicroCLI.run cliT ["script_name"] =
      .exited 1
        "Please specify a command (try the 'help' command for usage info)!\n" :=
  claim1_no_default_fallback "nosuch" (by decide) (by decide)
